import Mathlib

/-!
Shallow embedding of the `monitor` package (periodic health-check scheduler).

Source files embedded: `types.go` and `config.go`.

Modelling conventions:
- `time.Time` values and `time.Duration` values are nanosecond counts,
  modelled as `Int`.  The Go code converts a recovery duration to seconds
  with `Duration.Seconds()` before reporting it; we keep the underlying
  nanosecond difference, which determines the reported seconds by a fixed
  scaling.
- Each call of `time.Now()` is a separate clock read.  A single invocation
  of `handleStatusListener` performs at most one `time.Now()` call, so the
  function takes that reading as an explicit parameter `now`.  The
  `CheckTime` field of a candidate entry is set from an earlier `time.Now()`
  call inside `checkFunc`, passed separately as `checkNow`.
- Go maps are total functions into `Option`; a missing key is `none`, and
  reading `h.states[name]` yields the zero `State` when absent
  (`(states name).getD zeroState`).
- The `StatusListener` interface field is modelled by the Boolean
  `hasListener` (whether `h.StatusListener != nil`) together with a list of
  `Emission` values describing the listener calls dispatched during one
  detector invocation.  Go dispatches each call in its own goroutine and
  passes the shared `*State` pointer; an `Emission` records the check name
  and the scalar arguments, which Go fixes at dispatch time.
- The `Checker` interface and the `OnComplete` callback are capabilities:
  a probe invocation is represented by its outcome, a `(data, err)` pair of
  `Option String` values handed to `checkTick`.
- Errors returned by scheduler operations are the inductive `MError`,
  abstracting the `fmt.Errorf` messages by their kind and the offending name.
-/

/-- Per-check record of the latest run, mirroring `State` in `types.go`.
`Details` (Go `interface{}`) is modelled as `Option String`. -/
structure State where
  Name : String
  Status : String
  Err : String
  Details : Option String
  CheckTime : Int
  ContiguousFailures : Int
  TimeOfFirstFailure : Int
deriving DecidableEq

/-- Zero value of the Go `State` struct, produced by reading an absent map key. -/
def zeroState : State :=
  { Name := "", Status := "", Err := "", Details := none,
    CheckTime := 0, ContiguousFailures := 0, TimeOfFirstFailure := 0 }

/-- Mirrors `func (s *State) isFailure() bool { return s.Status == "failed" }`. -/
def State.isFailure (s : State) : Bool :=
  s.Status == "failed"

/-- One dispatched `StatusListener` call: the check name together with the
scalar arguments the Go code fixes when launching the goroutine. -/
inductive Emission where
  | checkFailed (name : String)
  | stillFailing (name : String) (recordedFailures : Int)
  | checkRecovered (name : String) (recordedFailures : Int) (failureDurationNanos : Int)
deriving DecidableEq

/-- Check descriptor, mirroring `Config` in `config.go`.  The `Checker` and
`OnComplete` capability fields are modelled at the point of use (probe
outcomes are inputs of `checkTick`), so only the data fields remain. -/
structure Config where
  Name : String
  Interval : Int
deriving DecidableEq

/-- Error taxonomy of the scheduler operations (the `fmt.Errorf` calls in
`types.go`), abstracted by kind. -/
inductive MError where
  | duplicateName (name : String)
  | notFound (name : String)
  | alreadyStarted
  | alreadyRunning
deriving DecidableEq

/-- The `Monitor` aggregate of `types.go`.  `hasListener` models whether the
`StatusListener` field is non-nil; `runners` models the `map[string]chan
struct\x7b\x7d` by key presence (every stored channel is non-nil in the source);
the jitter hook `RandomStartTimeMillis` has no effect on any state we model. -/
structure Monitor where
  hasListener : Bool
  configs : List Config
  states : String → Option State
  runners : String → Bool
  started : Bool

/-- Mirrors `New()`: empty registry, empty state store, empty runner map,
no listener attached, not started. -/
def NewMonitor : Monitor :=
  { hasListener := false, configs := [], states := fun _ => none,
    runners := fun _ => false, started := false }

/-- Inner double loop of `AddCheck`: for each `existing` in the registry (in
order), for each `c` in the batch (in order), if the names match, report the
duplicate name `c.Name`. -/
def findDuplicate : List Config → List Config → Option String
  | [], _ => none
  | existing :: rest, cfg =>
    match cfg.find? (fun c => c.Name == existing.Name) with
    | some c => some c.Name
    | none => findDuplicate rest cfg

/-- Mirrors `AddCheck(cfg ...*Config)`: scan the existing registry against the
batch; on the first name collision return the duplicate-name error without
appending anything; otherwise append the whole batch. -/
def Monitor.AddCheck (h : Monitor) (cfg : List Config) : Except MError Monitor :=
  match findDuplicate h.configs cfg with
  | some n => .error (.duplicateName n)
  | none => .ok { h with configs := h.configs ++ cfg }

/-- Mirrors `StopCheck(name)`: if a runner is present, delete it and delete
that check's state entry; otherwise fail with the not-found error. -/
def Monitor.StopCheck (h : Monitor) (name : String) : Except MError Monitor :=
  if h.runners name then
    .ok { h with
      runners := fun n => if n == name then false else h.runners n,
      states := fun n => if n == name then none else h.states n }
  else
    .error (.notFound name)

/-- Removal of the first registry entry with the given name, mirroring
`append(h.configs[:idx], h.configs[idx+1:]...)` at the first matching index;
`none` when no entry matches. -/
def removeFirstConfig (name : String) : List Config → Option (List Config)
  | [] => none
  | c :: rest =>
    if c.Name == name then some rest
    else (removeFirstConfig name rest).map (fun l => c :: l)

/-- Mirrors `RemoveCheck(cfg)` (keyed by `cfg.Name`): find the first registry
entry with that name; if the monitor is started, first call `StopCheck` and
propagate its error (returning before the registry is modified); on success
remove the entry.  When no entry matches, fail with the not-found error. -/
def Monitor.RemoveCheck (h : Monitor) (name : String) : Except MError Monitor :=
  match removeFirstConfig name h.configs with
  | none => .error (.notFound name)
  | some rest =>
    if h.started then
      match h.StopCheck name with
      | .error e => .error e
      | .ok h2 => .ok { h2 with configs := rest }
    else
      .ok { h with configs := rest }

/-- Mirrors `startRunnerForConfig`: record a fresh stop channel for the
config's name (the spawned lane itself is modelled by `checkTick` events). -/
def Monitor.startRunnerForConfig (h : Monitor) (c : Config) : Monitor :=
  { h with runners := fun n => if n == c.Name then true else h.runners n }

/-- Mirrors `Start()`: fail if already started, otherwise mark started and
start a runner for every registered config, in registry order. -/
def Monitor.Start (h : Monitor) : Except MError Monitor :=
  if h.started then
    .error .alreadyStarted
  else
    .ok (h.configs.foldl Monitor.startRunnerForConfig { h with started := true })

/-- Mirrors `StartCheck(name)`: the Go loop keeps the last registry entry with
a matching name; fail when none matches, fail when a runner already exists,
otherwise start a runner for the found config. -/
def Monitor.StartCheck (h : Monitor) (name : String) : Except MError Monitor :=
  match h.configs.reverse.find? (fun c => c.Name == name) with
  | none => .error (.notFound name)
  | some found =>
    if h.runners name then
      .error .alreadyRunning
    else
      .ok (h.startRunnerForConfig found)

/-- Mirrors `Stop()`: close every stop channel (the lanes disappear), reset
the runner map, reset the state store, clear the started flag; always `ok`. -/
def Monitor.Stop (h : Monitor) : Except MError Monitor :=
  .ok { h with runners := fun _ => false, states := fun _ => none,
               started := false }

/-- Mirrors `safeGetStates()`: a point-in-time copy of the state store (a deep
copy coincides with the mapping itself in the pure model). -/
def Monitor.safeGetStates (h : Monitor) : String → Option State :=
  h.states

/-- Mirrors the `State()` method on `Monitor` (named apart from the `State`
struct): returns the copied store and a nil error. -/
def MonitorState (h : Monitor) : (String → Option State) × Option MError :=
  (h.safeGetStates, none)

/-- Transition detector, mirroring `handleStatusListener`.  `prevState` is the
stored state read under the lock (zero `State` when absent); `stateEntry` is
the new candidate; `now` is the single `time.Now()` reading the executed
branch performs (new-failure branch and recovery branch each call it once).
Go mutates `stateEntry` in place and increments `ContiguousFailures` after
the inner branch; the merged record update below yields the same final
value.  Listener calls are dispatched as goroutines in Go; here they are the
returned `Emission` list, empty when no listener is attached. -/
def handleStatusListener (hasListener : Bool) (now : Int)
    (prevState stateEntry : State) : State × List Emission :=
  if stateEntry.isFailure then
    if !prevState.isFailure then
      ({ stateEntry with
          TimeOfFirstFailure := now,
          ContiguousFailures := prevState.ContiguousFailures + 1 },
       if hasListener then [Emission.checkFailed stateEntry.Name] else [])
    else
      ({ stateEntry with
          TimeOfFirstFailure := prevState.TimeOfFirstFailure,
          ContiguousFailures := prevState.ContiguousFailures + 1 },
       if hasListener then
         [Emission.stillFailing stateEntry.Name prevState.ContiguousFailures]
       else [])
  else if prevState.isFailure then
    (stateEntry,
     if hasListener then
       [Emission.checkRecovered stateEntry.Name prevState.ContiguousFailures
          (now - prevState.TimeOfFirstFailure)]
     else [])
  else
    (stateEntry, [])

/-- Mirrors `safeUpdateState`: run the detector against the stored previous
state, then store the (mutated) entry under its name. -/
def Monitor.safeUpdateState (h : Monitor) (now : Int) (stateEntry : State) :
    Monitor × List Emission :=
  let prevState := (h.states stateEntry.Name).getD zeroState
  let r := handleStatusListener h.hasListener now prevState stateEntry
  ({ h with states := fun n => if n == r.1.Name then some r.1 else h.states n },
   r.2)

/-- Candidate entry built by `checkFunc` in `startRunner` from one probe
outcome: status `ok` with empty error text, then overwritten to `failed`
with the error message when the probe errored.  `Details` is set from the
probe payload in both cases, as in the source. -/
def buildStateEntry (name : String) (checkNow : Int)
    (data err : Option String) : State :=
  match err with
  | none =>
    { Name := name, Status := "ok", Err := "", Details := data,
      CheckTime := checkNow, ContiguousFailures := 0, TimeOfFirstFailure := 0 }
  | some msg =>
    { Name := name, Status := "failed", Err := msg, Details := data,
      CheckTime := checkNow, ContiguousFailures := 0, TimeOfFirstFailure := 0 }

/-- One `checkFunc` invocation of a lane: build the candidate entry from the
probe outcome and fold it into the store via `safeUpdateState`.  The result
type carries no `MError`: a probe failure is never surfaced as a scheduler
error, only folded into the stored `State` and the emissions. -/
def checkTick (h : Monitor) (name : String) (checkNow detectNow : Int)
    (data err : Option String) : Monitor × List Emission :=
  h.safeUpdateState detectNow (buildStateEntry name checkNow data err)

/-- One probe observation for detector-level folds: the two clock readings of
the tick and the probe outcome. -/
structure Obs where
  checkNow : Int
  detectNow : Int
  data : Option String
  err : Option String
deriving DecidableEq

/-- One detector step on the per-check previous stored state (absent ⇒ zero
`State`), as performed by a tick for this check. -/
def stepDetect (hasListener : Bool) (name : String) (p : Option State)
    (o : Obs) : State × List Emission :=
  handleStatusListener hasListener o.detectNow (p.getD zeroState)
    (buildStateEntry name o.checkNow o.data o.err)

/-- Stored state of one check after folding a sequence of observations
through the transition detector, starting from an absent entry. -/
def runDetector (hasListener : Bool) (name : String) (l : List Obs) :
    Option State :=
  l.foldl (fun p o => some (stepDetect hasListener name p o).1) none

/-! ## Helper lemmas -/

/-- The candidate entry built by `checkFunc` carries the descriptor name. -/
lemma buildStateEntry_Name (name : String) (cn : Int) (data err : Option String) :
    (buildStateEntry name cn data err).Name = name := by
  cases err <;> rfl

/-- The detector mutates only the failure-streak fields: name, status and
error text of the candidate are preserved. -/
lemma handleStatusListener_fields (hl : Bool) (now : Int) (p e : State) :
    ((handleStatusListener hl now p e).1.Name = e.Name) ∧
    ((handleStatusListener hl now p e).1.Status = e.Status) ∧
    ((handleStatusListener hl now p e).1.Err = e.Err) := by
  cases h1 : e.isFailure <;> cases h2 : p.isFailure <;>
    simp [handleStatusListener, h1, h2]

/-- Streak invariant of stored states: status `ok` with a zero streak, or
status `failed` with a positive streak. -/
def StateInv (s : State) : Prop :=
  (s.Status = "ok" ∧ s.ContiguousFailures = 0) ∨
  (s.Status = "failed" ∧ 0 < s.ContiguousFailures)

/-- One detector step preserves the streak invariant (the absent previous
state counts as non-failing with a zero streak). -/
lemma stepDetect_inv (hl : Bool) (name : String) (p : Option State) (o : Obs)
    (hp : ∀ s, p = some s → StateInv s) :
    StateInv (stepDetect hl name p o).1 := by
  have hprev : (p.getD zeroState).ContiguousFailures = 0 ∨
      0 < (p.getD zeroState).ContiguousFailures := by
    cases p with
    | none => left; rfl
    | some s =>
      rcases hp s rfl with ⟨_, h⟩ | ⟨_, h⟩
      · left; exact h
      · right; exact h
  cases ho : o.err with
  | none =>
    by_cases hst : (p.getD zeroState).Status = "failed" <;>
      simp [StateInv, stepDetect, handleStatusListener, buildStateEntry, ho,
        State.isFailure, hst]
  | some msg =>
    by_cases hst : (p.getD zeroState).Status = "failed" <;>
      simp [StateInv, stepDetect, handleStatusListener, buildStateEntry, ho,
        State.isFailure, hst] <;>
      rcases hprev with hcf | hcf <;> omega

/-- The streak invariant holds for every state reached by folding
observations through the detector from an invariant-satisfying start. -/
lemma runDetector_foldl_inv (hl : Bool) (name : String) :
    ∀ (l : List Obs) (p : Option State),
      (∀ s, p = some s → StateInv s) →
      ∀ s, l.foldl (fun q o => some (stepDetect hl name q o).1) p = some s →
        StateInv s := by
  intro l
  induction l with
  | nil => intro p hp s hs; exact hp s hs
  | cons o rest ih =>
    intro p hp s hs
    simp only [List.foldl_cons] at hs
    refine ih _ (fun t ht => ?_) s hs
    cases ht
    exact stepDetect_inv hl name p o hp

/-! ## Claim theorems -/

/-- C1: for every check and every sequence of observations folded through the
transition detector, the stored state has a zero contiguous-failure count if
and only if its status is `ok`, equivalently a positive count if and only if
its status is `failed`. -/
theorem runDetector_contiguousFailures_iff (hl : Bool) (name : String)
    (l : List Obs) (s : State) (hs : runDetector hl name l = some s) :
    (s.ContiguousFailures = 0 ↔ s.Status = "ok") ∧
    (0 < s.ContiguousFailures ↔ s.Status = "failed") := by
  have hinv := runDetector_foldl_inv hl name l none (fun t ht => by cases ht) s hs
  rcases hinv with ⟨h1, h2⟩ | ⟨h1, h2⟩
  · refine ⟨⟨fun _ => h1, fun _ => h2⟩, ?_, ?_⟩
    · intro h; omega
    · intro h; rw [h1] at h; exact absurd h (by decide)
  · refine ⟨⟨fun h => by omega, fun h => ?_⟩, fun _ => h1, fun _ => h2⟩
    rw [h1] at h; exact absurd h (by decide)

/-- Stored state used by the C1 witness: the result of one failing
observation. -/
def sW1 : State :=
  { Name := "c", Status := "failed", Err := "e", Details := none,
    CheckTime := 0, ContiguousFailures := 1, TimeOfFirstFailure := 0 }

/-- Witness for C1 at the concrete observation sequence `[one failure]`. -/
theorem runDetector_contiguousFailures_iff_witness :
    (sW1.ContiguousFailures = 0 ↔ sW1.Status = "ok") ∧
    (0 < sW1.ContiguousFailures ↔ sW1.Status = "failed") :=
  runDetector_contiguousFailures_iff true "c" [⟨0, 0, none, some "e"⟩] sW1 rfl

/-- C2: when the new observation is failed and the previous stored state is
failing, the detector carries the previous first-failure time forward
unchanged, stores the previous contiguous-failure count plus one, and emits
exactly one `StillFailing` carrying the pre-increment count. -/
theorem stillFailing_step (now : Int) (prevState stateEntry : State)
    (hE : stateEntry.isFailure = true) (hP : prevState.isFailure = true) :
    handleStatusListener true now prevState stateEntry =
      ({ stateEntry with
          TimeOfFirstFailure := prevState.TimeOfFirstFailure,
          ContiguousFailures := prevState.ContiguousFailures + 1 },
       [Emission.stillFailing stateEntry.Name prevState.ContiguousFailures]) := by
  simp [handleStatusListener, hE, hP]

/-- Previous stored state used by the C2 witness. -/
def pW2 : State :=
  { Name := "c", Status := "failed", Err := "x", Details := none,
    CheckTime := 1, ContiguousFailures := 2, TimeOfFirstFailure := 1 }

/-- Candidate entry used by the C2 witness. -/
def eW2 : State := buildStateEntry "c" 5 none (some "y")

/-- Witness for C2 at a concrete failing previous state and failing entry. -/
theorem stillFailing_step_witness :
    handleStatusListener true 7 pW2 eW2 =
      ({ eW2 with TimeOfFirstFailure := 1, ContiguousFailures := 3 },
       [Emission.stillFailing "c" 2]) :=
  stillFailing_step 7 pW2 eW2 rfl rfl

/-- Failing previous stored state used by the C3 counterexample and witness:
first failure recorded at time 1, one contiguous failure. -/
def pC3 : State :=
  { Name := "c", Status := "failed", Err := "boom", Details := none,
    CheckTime := 0, ContiguousFailures := 1, TimeOfFirstFailure := 1 }

/-- Recovering candidate entry used by the C3 counterexample: observation
timestamp (`CheckTime`) 3. -/
def eC3 : State := buildStateEntry "c" 3 none none

/-- C3 counterexample: at detection-time clock reading 10, the code reports a
failure duration of `10 - 1 = 9` nanoseconds, not the claimed
`O.timestamp - P.TimeOfFirstFailure = 3 - 1 = 2`: the duration is computed
from a fresh `time.Now()` reading, not from the observation timestamp. -/
theorem checkRecovered_duration_counterexample :
    (handleStatusListener true 10 pC3 eC3).2 ≠
      [Emission.checkRecovered eC3.Name pC3.ContiguousFailures
        (eC3.CheckTime - pC3.TimeOfFirstFailure)] := by
  decide

/-- C3 (amended): when the new observation is ok and the previous stored
state is failing, the tick emits exactly one `CheckRecovered` whose reported
duration is the detection-time `time.Now()` reading minus the previous
state's first-failure time (rather than the observation timestamp minus the
first-failure time), and the new stored state is the candidate entry itself,
whose contiguous-failure count is 0 and whose first-failure time is the
cleared (zero) value. -/
theorem checkRecovered_step (h : Monitor) (name : String) (cn now : Int)
    (data : Option String) (hL : h.hasListener = true)
    (hP : ((h.states name).getD zeroState).isFailure = true) :
    checkTick h name cn now data none =
      ({ h with states := fun n =>
          (if n == name then some (buildStateEntry name cn data none)
           else h.states n) },
       [Emission.checkRecovered name
          ((h.states name).getD zeroState).ContiguousFailures
          (now - ((h.states name).getD zeroState).TimeOfFirstFailure)]) ∧
    (buildStateEntry name cn data none).ContiguousFailures = 0 ∧
    (buildStateEntry name cn data none).TimeOfFirstFailure = 0 := by
  refine ⟨?_, rfl, rfl⟩
  have hst : ((h.states name).getD zeroState).Status = "failed" := by
    simpa [State.isFailure] using hP
  simp [checkTick, Monitor.safeUpdateState, handleStatusListener,
    buildStateEntry, State.isFailure, hst, hL]

/-- Monitor used by the C3 witness: listener attached, check `c` stored in
the failing state `pC3`. -/
def mW3 : Monitor :=
  { hasListener := true, configs := [⟨"c", 100⟩],
    states := fun n => if n == "c" then some pC3 else none,
    runners := fun n => n == "c", started := true }

/-- Witness for C3 at a concrete failing stored state and an ok observation. -/
theorem checkRecovered_step_witness :
    checkTick mW3 "c" 3 10 none none =
      ({ mW3 with states := fun n =>
          (if n == "c" then some (buildStateEntry "c" 3 none none)
           else mW3.states n) },
       [Emission.checkRecovered "c"
          ((mW3.states "c").getD zeroState).ContiguousFailures
          (10 - ((mW3.states "c").getD zeroState).TimeOfFirstFailure)]) ∧
    (buildStateEntry "c" 3 none none).ContiguousFailures = 0 ∧
    (buildStateEntry "c" 3 none none).TimeOfFirstFailure = 0 :=
  checkRecovered_step mW3 "c" 3 10 none rfl rfl

/-- Observation used by the C4 counterexample: probe error at observation
timestamp (`CheckTime`) 3, detection-time clock reading 10. -/
def oC4 : Obs := ⟨3, 10, none, some "boom"⟩

/-- C4 counterexample: starting a new failure streak with no previous stored
state, the stored entry's first-failure time is the fresh `time.Now()`
reading taken inside the detector (10), not the observation's timestamp
(`CheckTime = 3`) as claimed. -/
theorem checkFailed_firstFailureTime_counterexample :
    ((stepDetect true "c" none oC4).1.CheckTime = 3) ∧
    ((stepDetect true "c" none oC4).1.TimeOfFirstFailure ≠ 3) := by
  decide

/-- C4 (amended): when the new observation is failed and the previous stored
state is absent or not failing (after any fold of observations through the
detector), the detector starts a new streak: the stored first-failure time
is the fresh detection-time `time.Now()` reading (rather than the
observation's timestamp), the contiguous-failure count becomes 1, and
exactly one `CheckFailed` is emitted. -/
theorem checkFailed_step (name : String) (l : List Obs) (o : Obs) (msg : String)
    (ho : o.err = some msg)
    (hP : ((runDetector true name l).getD zeroState).isFailure = false) :
    stepDetect true name (runDetector true name l) o =
      ({ buildStateEntry name o.checkNow o.data o.err with
          TimeOfFirstFailure := o.detectNow, ContiguousFailures := 1 },
       [Emission.checkFailed name]) := by
  have hcf : ((runDetector true name l).getD zeroState).ContiguousFailures = 0 := by
    cases hr : runDetector true name l with
    | none => rfl
    | some s =>
      have hinv := runDetector_foldl_inv true name l none (fun t ht => by cases ht) s hr
      rcases hinv with ⟨h1, h2⟩ | ⟨h1, h2⟩
      · simpa [hr] using h2
      · rw [hr] at hP
        simp [State.isFailure, h1] at hP
  have hst : ¬ ((runDetector true name l).getD zeroState).Status = "failed" := by
    simpa [State.isFailure] using hP
  simp [stepDetect, handleStatusListener, ho, buildStateEntry,
    State.isFailure, hst, hcf]

/-- Observation used by the C4 witness. -/
def oW4 : Obs := ⟨3, 10, none, some "b"⟩

/-- Witness for C4 at the empty previous observation sequence. -/
theorem checkFailed_step_witness :
    stepDetect true "c" (runDetector true "c" []) oW4 =
      ({ buildStateEntry "c" oW4.checkNow oW4.data oW4.err with
          TimeOfFirstFailure := oW4.detectNow, ContiguousFailures := 1 },
       [Emission.checkFailed "c"]) :=
  checkFailed_step "c" [] oW4 "b" rfl rfl

/-- Monitor used by the C5 counterexample: `a` is registered, the monitor is
started, but no lane is running for `a` (for example after `StopCheck`). -/
def mC5 : Monitor :=
  { hasListener := false, configs := [⟨"a", 100⟩],
    states := fun _ => none, runners := fun _ => false, started := true }

/-- C5 counterexample: the descriptor `a` is registered, yet `RemoveCheck`
fails with the not-found error (propagated from `StopCheck`, which the code
invokes whenever the monitor is started, not only when the check is
running), and the descriptor is not removed. -/
theorem removeCheck_registered_fails_counterexample :
    (mC5.configs.any fun c => c.Name == "a") = true ∧
    mC5.RemoveCheck "a" = .error (.notFound "a") :=
  ⟨rfl, rfl⟩

/-- C5 (amended): `RemoveCheck` removes the first registered descriptor with
the given name, but when the monitor is started it unconditionally calls
`StopCheck` first and propagates its not-found error — so on a started
monitor with no lane running for that name the call fails and the
descriptor is not removed.  When the monitor is not started the descriptor
is removed without touching any lane; when started with a running lane the
lane and the state entry are deleted and the descriptor is removed.
`RemoveCheck` fails with the not-found error also when no descriptor with
that name exists. -/
theorem removeCheck_spec (h : Monitor) (name : String) :
    (removeFirstConfig name h.configs = none →
      h.RemoveCheck name = .error (.notFound name)) ∧
    (∀ rest, removeFirstConfig name h.configs = some rest →
      (h.started = false → h.RemoveCheck name = .ok { h with configs := rest }) ∧
      (h.started = true → h.runners name = false →
        h.RemoveCheck name = .error (.notFound name)) ∧
      (h.started = true → h.runners name = true →
        h.RemoveCheck name = .ok
          { h with
            configs := rest,
            runners := fun n => (if n == name then false else h.runners n),
            states := fun n => (if n == name then none else h.states n) })) := by
  refine ⟨fun hn => ?_, fun rest hr => ⟨fun hs => ?_, fun hs hrun => ?_,
    fun hs hrun => ?_⟩⟩
  · simp [Monitor.RemoveCheck, hn]
  · simp [Monitor.RemoveCheck, hr, hs]
  · simp [Monitor.RemoveCheck, Monitor.StopCheck, hr, hs, hrun]
  · simp [Monitor.RemoveCheck, Monitor.StopCheck, hr, hs, hrun]

/-- Monitor used by the C5 witness: two registered checks, both running. -/
def mW5 : Monitor :=
  { hasListener := false, configs := [⟨"a", 100⟩, ⟨"b", 200⟩],
    states := fun _ => none,
    runners := fun n => n == "a" || n == "b", started := true }

/-- Witness for C5: removing the running check `a` stops its lane, deletes
its state entry and removes its descriptor. -/
theorem removeCheck_spec_witness :
    mW5.RemoveCheck "a" = .ok
      { mW5 with
        configs := [⟨"b", 200⟩],
        runners := fun n => (if n == "a" then false else mW5.runners n),
        states := fun n => (if n == "a" then none else mW5.states n) } :=
  ((removeCheck_spec mW5 "a").2 [⟨"b", 200⟩] rfl).2.2 rfl rfl

/-- C6: `Stop` always succeeds, and afterwards the `State()` query returns an
empty mapping (every key absent), the runner map is empty and the started
flag is cleared — for any monitor, hence for any number of running checks. -/
theorem stop_clears_everything (h : Monitor) :
    ∃ h2, h.Stop = Except.ok h2 ∧
      (∀ k, (MonitorState h2).1 k = none) ∧
      (∀ k, h2.runners k = false) ∧
      h2.started = false :=
  ⟨_, rfl, fun _ => rfl, fun _ => rfl, rfl⟩

/-- C7: when a lane is running for `name`, `StopCheck` succeeds, deletes
exactly that check's state entry and runner, and leaves every other check's
state entry and runner, the registry and the started flag unchanged; when
no lane is running for `name` it fails with the not-found error (and, the
receiver being pure, changes nothing). -/
theorem stopCheck_frame (h : Monitor) (name : String) :
    (h.runners name = true →
      ∃ h2, h.StopCheck name = .ok h2 ∧
        h2.states name = none ∧ h2.runners name = false ∧
        h2.configs = h.configs ∧ h2.started = h.started ∧
        (∀ k, k ≠ name → h2.states k = h.states k ∧ h2.runners k = h.runners k)) ∧
    (h.runners name = false → h.StopCheck name = .error (.notFound name)) := by
  constructor
  · intro hr
    refine ⟨{ h with
        runners := fun n => (if n == name then false else h.runners n),
        states := fun n => (if n == name then none else h.states n) },
      by simp [Monitor.StopCheck, hr], by simp, by simp, rfl, rfl, ?_⟩
    intro k hk
    constructor <;> simp [hk]
  · intro hr
    simp [Monitor.StopCheck, hr]

/-- Stored state for check `a` in the C7 witness monitor. -/
def sW7a : State :=
  { Name := "a", Status := "ok", Err := "", Details := none,
    CheckTime := 5, ContiguousFailures := 0, TimeOfFirstFailure := 0 }

/-- Stored state for check `b` in the C7 witness monitor. -/
def sW7b : State :=
  { Name := "b", Status := "failed", Err := "x", Details := none,
    CheckTime := 6, ContiguousFailures := 2, TimeOfFirstFailure := 4 }

/-- Monitor used by the C7 witness: lanes running for `a` and `b`, with a
stored state for each. -/
def mW7 : Monitor :=
  { hasListener := false, configs := [⟨"a", 100⟩, ⟨"b", 200⟩],
    states := fun n =>
      (if n == "a" then some sW7a else if n == "b" then some sW7b else none),
    runners := fun n => n == "a" || n == "b", started := true }

/-- Witness for C7: stopping the running check `a` succeeds (with the frame
conditions), and stopping the not-running `z` fails with not-found. -/
theorem stopCheck_frame_witness :
    (∃ h2, mW7.StopCheck "a" = .ok h2 ∧
      h2.states "a" = none ∧ h2.runners "a" = false ∧
      h2.configs = mW7.configs ∧ h2.started = mW7.started ∧
      (∀ k, k ≠ "a" → h2.states k = mW7.states k ∧ h2.runners k = mW7.runners k)) ∧
    mW7.StopCheck "z" = .error (.notFound "z") :=
  ⟨(stopCheck_frame mW7 "a").1 rfl, (stopCheck_frame mW7 "z").2 rfl⟩

/-- Scanning the registry against a singleton batch finds the duplicate name
whenever some registered config carries the same name. -/
lemma findDuplicate_single (l : List Config) (c : Config)
    (hc : ∃ e ∈ l, e.Name = c.Name) :
    findDuplicate l [c] = some c.Name := by
  induction l with
  | nil => rcases hc with ⟨e, he, _⟩; cases he
  | cons a rest ih =>
    rcases hc with ⟨e, he, hname⟩
    by_cases hca : c.Name = a.Name
    · simp [findDuplicate, hca]
    · have hmem : e ∈ rest := by
        rcases List.mem_cons.mp he with rfl | hm
        · exact absurd hname.symm hca
        · exact hm
      simp only [findDuplicate, List.find?_singleton]
      rw [if_neg (by simpa using hca)]
      exact ih ⟨e, hmem, hname⟩

/-- C8: registering a single descriptor whose name collides with an already
registered one fails with the duplicate-name error; the Go code returns
before the append, so the registry is left unchanged (in this pure model the
receiver is never mutated, and no successor monitor is produced). -/
theorem addCheck_duplicate (h : Monitor) (c : Config)
    (hc : ∃ e ∈ h.configs, e.Name = c.Name) :
    h.AddCheck [c] = .error (.duplicateName c.Name) := by
  simp [Monitor.AddCheck, findDuplicate_single h.configs c hc]

/-- Monitor used by the C8 witness: one registered check named `a`. -/
def mW8 : Monitor :=
  { hasListener := false, configs := [⟨"a", 100⟩],
    states := fun _ => none, runners := fun _ => false, started := false }

/-- Witness for C8: re-registering the name `a` fails with the
duplicate-name error. -/
theorem addCheck_duplicate_witness :
    mW8.AddCheck [⟨"a", 200⟩] = .error (.duplicateName "a") :=
  addCheck_duplicate mW8 ⟨"a", 200⟩ ⟨⟨"a", 100⟩, by simp [mW8], rfl⟩

/-- The registry-against-batch scan reports no duplicate exactly when no
batch member shares a name with a registered config.  Note the scan never
compares batch members with each other. -/
lemma findDuplicate_eq_none_iff (ex batch : List Config) :
    findDuplicate ex batch = none ↔
      ∀ e ∈ ex, ∀ c ∈ batch, c.Name ≠ e.Name := by
  induction ex with
  | nil => simp [findDuplicate]
  | cons a rest ih =>
    constructor
    · intro h
      cases hf : batch.find? (fun c => c.Name == a.Name) with
      | some c => simp [findDuplicate, hf] at h
      | none =>
        simp only [findDuplicate, hf] at h
        intro e he c hc
        rcases List.mem_cons.mp he with rfl | he2
        · have := List.find?_eq_none.mp hf c hc
          simpa using this
        · exact ih.mp h e he2 c hc
    · intro h
      have hf : batch.find? (fun c => c.Name == a.Name) = none := by
        apply List.find?_eq_none.mpr
        intro c hc
        simpa using h a (List.mem_cons_self a rest) c hc
      simp only [findDuplicate, hf]
      exact ih.mpr (fun e he c hc => h e (List.mem_cons_of_mem a he) c hc)

/-- C10: `AddCheck` over a batch is atomic with respect to name conflicts
against the existing registry: when some batch member collides with an
already registered config the call returns a duplicate-name error and (the
Go code returning before the append) no descriptor is added; when no batch
member collides with a registered config — batch members are never compared
with each other — the whole batch is appended. -/
theorem addCheck_batch_atomic (h : Monitor) (cfgs : List Config) :
    ((∃ c ∈ cfgs, ∃ e ∈ h.configs, c.Name = e.Name) →
      ∃ n, h.AddCheck cfgs = .error (.duplicateName n)) ∧
    ((∀ c ∈ cfgs, ∀ e ∈ h.configs, c.Name ≠ e.Name) →
      h.AddCheck cfgs = .ok { h with configs := h.configs ++ cfgs }) := by
  constructor
  · intro hc
    cases hd : findDuplicate h.configs cfgs with
    | none =>
      rw [findDuplicate_eq_none_iff] at hd
      rcases hc with ⟨c, hc1, e, he, hn⟩
      exact absurd hn (hd e he c hc1)
    | some n => exact ⟨n, by simp [Monitor.AddCheck, hd]⟩
  · intro hc
    have hd : findDuplicate h.configs cfgs = none :=
      (findDuplicate_eq_none_iff _ _).mpr (fun e he c hcc => hc c hcc e he)
    simp [Monitor.AddCheck, hd]

/-- Monitor used by the C10 witness: one registered check named `a`. -/
def mW10 : Monitor :=
  { hasListener := false, configs := [⟨"a", 100⟩],
    states := fun _ => none, runners := fun _ => false, started := false }

/-- Witness for C10: a batch containing the registered name `a` fails with a
duplicate-name error, while a batch of two descriptors that share the new
name `x` with each other (but collide with nothing registered) is appended
whole — batch members are not compared against each other. -/
theorem addCheck_batch_atomic_witness :
    (∃ n, mW10.AddCheck [⟨"b", 1⟩, ⟨"a", 2⟩] = .error (.duplicateName n)) ∧
    mW10.AddCheck [⟨"x", 1⟩, ⟨"x", 2⟩] =
      .ok { mW10 with configs := mW10.configs ++ [⟨"x", 1⟩, ⟨"x", 2⟩] } :=
  ⟨(addCheck_batch_atomic mW10 [⟨"b", 1⟩, ⟨"a", 2⟩]).1
      ⟨⟨"a", 2⟩, by simp, ⟨"a", 100⟩, by simp [mW10], rfl⟩,
    (addCheck_batch_atomic mW10 [⟨"x", 1⟩, ⟨"x", 2⟩]).2 (by decide)⟩

/-- C9: for every probe invocation in a lane, the stored entry built by the
tick has status `failed` with error text equal to the probe error message
when the probe errored, and status `ok` with empty error text otherwise.
The probe outcome never produces a scheduler error: `checkTick` is total
into `Monitor × List Emission` (no `MError` in its result type); the
failure is only folded into the stored `State` and reported through the
detector's emissions. -/
theorem probe_outcome_folded_into_state (h : Monitor) (name : String)
    (cn dn : Int) (data err : Option String) :
    ∃ st ems, checkTick h name cn dn data err =
      ({ h with states := fun n => (if n == name then some st else h.states n) },
       ems) ∧
      st.Name = name ∧
      st.Status = (match err with | some _ => "failed" | none => "ok") ∧
      st.Err = (match err with | some m => m | none => "") := by
  refine ⟨(handleStatusListener h.hasListener dn ((h.states name).getD zeroState)
      (buildStateEntry name cn data err)).1,
    (handleStatusListener h.hasListener dn ((h.states name).getD zeroState)
      (buildStateEntry name cn data err)).2, ?_, ?_, ?_, ?_⟩
  · have hn : (handleStatusListener h.hasListener dn
        ((h.states name).getD zeroState) (buildStateEntry name cn data err)).1.Name
        = name := by
      rw [(handleStatusListener_fields _ _ _ _).1, buildStateEntry_Name]
    simp only [checkTick, Monitor.safeUpdateState, buildStateEntry_Name, hn]
  · rw [(handleStatusListener_fields _ _ _ _).1, buildStateEntry_Name]
  · rw [(handleStatusListener_fields _ _ _ _).2.1]
    cases err <;> rfl
  · rw [(handleStatusListener_fields _ _ _ _).2.2]
    cases err <;> rfl
